import Mathlib

/-!
# Verification of the troll-button interaction core

Shallow embedding of the interaction state machine of the `kiro-demo`
todo-list application: the `useTrollBehavior` hook (click counting,
rotation/scale transforms, hover-escape offsets, confirmation-dialog
sequencing), the `TrollButtonContext` displacement registry, and the
fixed `DoneButton` variant.  JavaScript numbers are modelled as
rationals; `Math.random()` draws are passed in as an explicit parameter
`r` with `0 ≤ r < 1`.
-/

namespace KiroDemo

/-! ## Constants from `src/hooks/useTrollBehavior.ts` -/

/-- Confirmation dialog messages that appear in sequence. -/
def TROLL_MESSAGES : List String :=
  ["Are you SURE?", "Really?", "But what if you\x27re wrong?"]

/-- Number of clicks required before completion is allowed. -/
def REQUIRED_CLICKS : Nat := 1

/-- Rotation increment per click (degrees). -/
def ROTATION_INCREMENT : ℚ := 15

/-- Scale decrement per click (shrinks button). -/
def SCALE_DECREMENT : ℚ := 1/10

/-- Minimum scale (button will not shrink below this). -/
def MIN_SCALE : ℚ := 1/2

/-- Hover escape offset range lower bound (pixels). -/
def HOVER_ESCAPE_MIN : ℚ := 80

/-- Hover escape offset range upper bound (pixels). -/
def HOVER_ESCAPE_MAX : ℚ := 120

/-- Maximum number of full escapes before button gets tired. -/
def MAX_ESCAPES : Nat := 4

/-- Reduced movement lower bound after the button is tired. -/
def TIRED_ESCAPE_MIN : ℚ := 15

/-- Reduced movement upper bound after the button is tired. -/
def TIRED_ESCAPE_MAX : ℚ := 25

/-! ## The interaction state -/

/-- A two-dimensional pixel offset, as in `hoverEscapeOffset: { x, y }`. -/
structure Offset where
  x : ℚ
  y : ℚ
deriving Repr, DecidableEq

/-- The `TrollState` record managed by `useState` inside `useTrollBehavior`. -/
structure TrollState where
  clickCount : Nat
  rotation : ℚ
  scale : ℚ
  dialogStage : Nat
  hoverEscapeOffset : Offset
  escapeDirection : ℚ
  escapeCount : Nat
deriving Repr, DecidableEq

/-- The full state held by the hook: the `TrollState` together with the
separate `isComplete` boolean `useState`. -/
structure HookState where
  state : TrollState
  isComplete : Bool
deriving Repr, DecidableEq

/-- Initial value passed to `useState<TrollState>` in the hook. -/
def initialTrollState : TrollState :=
  { clickCount := 0
    rotation := 0
    scale := 1
    dialogStage := 0
    hoverEscapeOffset := { x := 0, y := 0 }
    escapeDirection := 1
    escapeCount := 0 }

/-- Initial hook state: initial troll state, `isComplete = false`. -/
def initialHookState : HookState :=
  { state := initialTrollState, isComplete := false }

/-! ## Transitions -/

/-- Transition `handleClick`: no-op when complete; otherwise increments `clickCount`,
adds the rotation increment, clamps the scale decrement, and opens the
dialog (`dialogStage := 1`) when the new click count meets
`REQUIRED_CLICKS` and no dialog is currently staged. -/
def handleClick (h : HookState) : HookState :=
  if h.isComplete then h
  else
    let prev := h.state
    let newClickCount := prev.clickCount + 1
    let newRotation := prev.rotation + ROTATION_INCREMENT
    let newScale := max MIN_SCALE (prev.scale - SCALE_DECREMENT)
    if newClickCount ≥ REQUIRED_CLICKS ∧ prev.dialogStage = 0 then
      { h with state :=
        { prev with
          clickCount := newClickCount
          rotation := newRotation
          scale := newScale
          dialogStage := 1 } }
    else
      { h with state :=
        { prev with
          clickCount := newClickCount
          rotation := newRotation
          scale := newScale } }

/-- Result record of `generateEscapeOffset`. -/
structure EscapeResult where
  x : ℚ
  y : ℚ
  newDirection : ℚ
deriving Repr, DecidableEq

/-- Function `generateEscapeOffset`: horizontal escape offset.  The `Math.random()`
draw is the explicit parameter `r`. -/
def generateEscapeOffset (currentDirection : ℚ) (escapeCount : Nat) (r : ℚ) :
    EscapeResult :=
  let isTired := escapeCount ≥ MAX_ESCAPES
  let minDist := if isTired then TIRED_ESCAPE_MIN else HOVER_ESCAPE_MIN
  let maxDist := if isTired then TIRED_ESCAPE_MAX else HOVER_ESCAPE_MAX
  let distance := minDist + r * (maxDist - minDist)
  let newDirection := currentDirection * (-1)
  { x := newDirection * distance
    y := 0
    newDirection := newDirection }

/-- Transition `handleHover`: no-op when complete; otherwise stores a fresh escape
offset, the alternated direction, and increments `escapeCount`. -/
def handleHover (r : ℚ) (h : HookState) : HookState :=
  if h.isComplete then h
  else
    let prev := h.state
    let escape := generateEscapeOffset prev.escapeDirection prev.escapeCount r
    { h with state :=
      { prev with
        hoverEscapeOffset := { x := escape.x, y := escape.y }
        escapeDirection := escape.newDirection
        escapeCount := prev.escapeCount + 1 } }

/-- Transition `confirmDialog`: advances the dialog stage; past the last message it
marks completion and resets the stage to 0. -/
def confirmDialog (h : HookState) : HookState :=
  let prev := h.state
  let newDialogStage := prev.dialogStage + 1
  if newDialogStage > TROLL_MESSAGES.length then
    { state := { prev with dialogStage := 0 }, isComplete := true }
  else
    { h with state := { prev with dialogStage := newDialogStage } }

/-- Transition `cancelDialog`: resets the dialog stage only (click count kept). -/
def cancelDialog (h : HookState) : HookState :=
  { h with state := { h.state with dialogStage := 0 } }

/-- Transition `resetTroll`: restores the initial state and clears `isComplete`. -/
def resetTroll (_h : HookState) : HookState := initialHookState

/-- Transition `resetHoverOffset`: zeroes only the hover offset, direction and escape
count (used when another button becomes active). -/
def resetHoverOffset (h : HookState) : HookState :=
  { h with state :=
    { h.state with
      hoverEscapeOffset := { x := 0, y := 0 }
      escapeDirection := 1
      escapeCount := 0 } }

/-- Derived value `currentMessage`: message at index `dialogStage - 1` while
`1 ≤ dialogStage ≤ TROLL_MESSAGES.length`, else none. -/
def currentMessage (h : HookState) : Option String :=
  if h.state.dialogStage > 0 ∧ h.state.dialogStage ≤ TROLL_MESSAGES.length then
    TROLL_MESSAGES[h.state.dialogStage - 1]?
  else
    none

/-- Iterated clicks from a state. -/
def clicks (n : Nat) (h : HookState) : HookState := handleClick^[n] h

/-- The state reached by the normal completion run: one click (opens the
dialog, since `REQUIRED_CLICKS = 1`) followed by three confirmations. -/
def doneState : HookState :=
  confirmDialog (confirmDialog (confirmDialog (handleClick initialHookState)))

/-- The state reached by click, cancel, click from the initial state. -/
def afterCancelClick : HookState :=
  handleClick (cancelDialog (handleClick initialHookState))

/-! ## The displacement registry (`TrollButtonContext`) -/

/-- The registry state provided by `TrollButtonProvider`: the id of the
single button which is currently displaced (`activeButtonId`, nullable). -/
structure TrollButtonContextValue where
  activeButtonId : Option String
deriving Repr, DecidableEq

/-- Operation `setActiveButton`: store the given id (or null) as the active one. -/
def setActiveButton (id : Option String) (_ctx : TrollButtonContextValue) :
    TrollButtonContextValue :=
  { activeButtonId := id }

/-- Operation `isActiveButton`: whether `activeButtonId === id`. -/
def isActiveButton (id : String) (ctx : TrollButtonContextValue) : Bool :=
  ctx.activeButtonId = some id

/-- A list of sibling `TrollDoneButton`s sharing one provider: the shared
registry plus each control's own hook state, keyed by todo id. -/
structure ListSystem where
  registry : TrollButtonContextValue
  controls : String → HookState

/-- Handler `handleButtonHover` of `TrollDoneButton`: make this button the active
displaced one, then generate a new escape offset for it (`r` is the
`Math.random()` draw of that hover). -/
def handleButtonHover (todoId : String) (r : ℚ) (sys : ListSystem) :
    ListSystem :=
  { registry := setActiveButton (some todoId) sys.registry
    controls := fun id =>
      if id = todoId then handleHover r (sys.controls id) else sys.controls id }

/-- A sequence of hover events, each naming the hovered todo id and the
random draw used for its escape offset. -/
def applyHovers (events : List (String × ℚ)) (sys : ListSystem) : ListSystem :=
  events.foldl (fun s e => handleButtonHover e.1 e.2 s) sys

/-- The `translateX` actually applied by `TrollDoneButton`:
`isDisplaced ? hoverOffset.x : 0`. -/
def renderedOffsetX (sys : ListSystem) (id : String) : ℚ :=
  if isActiveButton id sys.registry then
    (sys.controls id).state.hoverEscapeOffset.x
  else 0

/-- A fresh provider over fresh controls: no button active yet. -/
def initialListSystem : ListSystem :=
  { registry := { activeButtonId := none }
    controls := fun _ => initialHookState }

/-- Hook `useTrollButtonContext`: reading the context outside a provider (the
context value is undefined) throws; inside a provider it returns the
context value. -/
def useTrollButtonContext (ctx : Option TrollButtonContextValue) :
    Except String TrollButtonContextValue :=
  match ctx with
  | none =>
      Except.error "useTrollButtonContext must be used within a TrollButtonProvider"
  | some c => Except.ok c

/-! ## The fixed `DoneButton` -/

/-- The native button element rendered by the fixed `DoneButton`: its click
handler, and its (absent) hover handler.  `σ` is the owner's state, acted
on by the completion callback. -/
structure ButtonNode (σ : Type) where
  onClick : σ → σ
  onMouseEnter : Option (σ → σ)

/-- The fixed `DoneButton` component: renders nothing when the todo is
completed; otherwise renders a button whose `onClick` is exactly the
`onComplete` callback and which has no hover handler.  The component holds
no state of its own. -/
def DoneButton {σ : Type} (onComplete : σ → σ) (isCompleted : Bool) :
    Option (ButtonNode σ) :=
  if isCompleted then none
  else some { onClick := onComplete, onMouseEnter := none }

/-- A single activation (mouse click, or Enter/Space on the focused native
button) dispatches the node's click handler exactly once. -/
def activate {σ : Type} (node : ButtonNode σ) (s : σ) : σ := node.onClick s

end KiroDemo

namespace KiroDemo

/-! ## C5: `cancelDialog` frame -/

/-- C5: `cancelDialog` sets `dialogStage` to 0 and preserves every other
field (`clickCount`, `rotation`, `scale`, `hoverEscapeOffset`,
`escapeDirection`, `escapeCount`, `isComplete`); in particular after three
clicks from the initial state and a cancel, `clickCount = 3` and
`dialogStage = 0`. -/
theorem cancelDialog_resets_stage_only (h : HookState) :
    (cancelDialog h).state.dialogStage = 0 ∧
    (cancelDialog h).state.clickCount = h.state.clickCount ∧
    (cancelDialog h).state.rotation = h.state.rotation ∧
    (cancelDialog h).state.scale = h.state.scale ∧
    (cancelDialog h).state.hoverEscapeOffset = h.state.hoverEscapeOffset ∧
    (cancelDialog h).state.escapeDirection = h.state.escapeDirection ∧
    (cancelDialog h).state.escapeCount = h.state.escapeCount ∧
    (cancelDialog h).isComplete = h.isComplete ∧
    ((cancelDialog (clicks 3 initialHookState)).state.clickCount = 3 ∧
      (cancelDialog (clicks 3 initialHookState)).state.dialogStage = 0) := by
  refine ⟨rfl, rfl, rfl, rfl, rfl, rfl, rfl, rfl, ?_, ?_⟩ <;> decide

/-! ## C10: clicks while a dialog is open still mutate click state -/

/-- C10: with `isComplete = false` and `dialogStage > 0`, `handleClick`
increments `clickCount`, adds `ROTATION_INCREMENT` to the rotation, applies
the clamped scale decrement, and leaves `dialogStage`, the hover offset,
the escape direction/count and `isComplete` unchanged: mid-sequence clicks
are counted, not ignored. -/
theorem handleClick_during_dialog (h : HookState)
    (hc : h.isComplete = false) (hd : h.state.dialogStage > 0) :
    (handleClick h).state.clickCount = h.state.clickCount + 1 ∧
    (handleClick h).state.rotation = h.state.rotation + ROTATION_INCREMENT ∧
    (handleClick h).state.scale = max MIN_SCALE (h.state.scale - SCALE_DECREMENT) ∧
    (handleClick h).state.dialogStage = h.state.dialogStage ∧
    (handleClick h).state.hoverEscapeOffset = h.state.hoverEscapeOffset ∧
    (handleClick h).state.escapeDirection = h.state.escapeDirection ∧
    (handleClick h).state.escapeCount = h.state.escapeCount ∧
    (handleClick h).isComplete = h.isComplete := by
  have hd' : ¬ h.state.dialogStage = 0 := Nat.pos_iff_ne_zero.mp hd
  simp [handleClick, hc, hd']

/-- Witness for C10 at the state reached by one click and then opening the
dialog (one click from the initial state opens it already). -/
theorem handleClick_during_dialog_witness :
    (handleClick initialHookState).isComplete = false ∧
    (handleClick initialHookState).state.dialogStage > 0 ∧
    (handleClick (handleClick initialHookState)).state.clickCount
      = (handleClick initialHookState).state.clickCount + 1 := by
  refine ⟨by decide, by decide, ?_⟩
  exact (handleClick_during_dialog (handleClick initialHookState)
    (by decide) (by decide)).1

/-! ## C3: `confirmDialog` progression -/

/-- C3: `confirmDialog` adds one to `dialogStage`; when the new stage
exceeds `TROLL_MESSAGES.length = 3` it sets `isComplete` and resets the
stage to 0; it never touches `clickCount`, `rotation`, `scale`, the hover
offset, direction or escape count.  From `dialogStage = 1` with
`isComplete = false`, three confirmations yield `isComplete = true` and
`dialogStage = 0`, while one or two confirmations leave `isComplete`
false. -/
theorem confirmDialog_progression (h : HookState) :
    ((confirmDialog h).state.clickCount = h.state.clickCount ∧
      (confirmDialog h).state.rotation = h.state.rotation ∧
      (confirmDialog h).state.scale = h.state.scale ∧
      (confirmDialog h).state.hoverEscapeOffset = h.state.hoverEscapeOffset ∧
      (confirmDialog h).state.escapeDirection = h.state.escapeDirection ∧
      (confirmDialog h).state.escapeCount = h.state.escapeCount) ∧
    (h.state.dialogStage + 1 > TROLL_MESSAGES.length →
      (confirmDialog h).isComplete = true ∧
      (confirmDialog h).state.dialogStage = 0) ∧
    (h.state.dialogStage + 1 ≤ TROLL_MESSAGES.length →
      (confirmDialog h).isComplete = h.isComplete ∧
      (confirmDialog h).state.dialogStage = h.state.dialogStage + 1) ∧
    (h.state.dialogStage = 1 → h.isComplete = false →
      ((confirmDialog (confirmDialog (confirmDialog h))).isComplete = true ∧
        (confirmDialog (confirmDialog (confirmDialog h))).state.dialogStage = 0 ∧
        (confirmDialog h).isComplete = false ∧
        (confirmDialog (confirmDialog h)).isComplete = false)) := by
  refine ⟨?_, ?_, ?_, ?_⟩
  · by_cases hgt : h.state.dialogStage + 1 > TROLL_MESSAGES.length <;>
      simp [confirmDialog, hgt]
  · intro hgt
    simp [confirmDialog, hgt]
  · intro hle
    have hgt : ¬ h.state.dialogStage + 1 > TROLL_MESSAGES.length := not_lt.mpr hle
    simp [confirmDialog, hgt]
  · intro h1 hc
    simp [confirmDialog, TROLL_MESSAGES, h1, hc]

/-- Witness for C3 at the state one click past initial (dialog at stage 1). -/
theorem confirmDialog_progression_witness :
    ((handleClick initialHookState).state.dialogStage = 1 ∧
      (handleClick initialHookState).isComplete = false) ∧
    (confirmDialog (confirmDialog (confirmDialog
      (handleClick initialHookState)))).isComplete = true := by
  refine ⟨⟨by decide, by decide⟩, ?_⟩
  exact (((confirmDialog_progression (handleClick initialHookState)).2.2.2)
    (by decide) (by decide)).1

/-! ## C1: completeness is terminal — only for clicks and hovers -/

/-- C1 counterexample: in the completed state reached by the normal run
(`isComplete = true`, `dialogStage = 0`), `confirmDialog` is not a no-op:
it is not guarded by `isComplete` and moves `dialogStage` from 0 to 1. -/
theorem confirmDialog_changes_complete_state :
    doneState.isComplete = true ∧
    doneState.state.dialogStage = 0 ∧
    (confirmDialog doneState).state.dialogStage = 1 ∧
    confirmDialog doneState ≠ doneState := by
  refine ⟨by decide, by decide, by decide, ?_⟩
  intro heq
  have h1 : (confirmDialog doneState).state.dialogStage = 1 := by decide
  have h0 : doneState.state.dialogStage = 0 := by decide
  rw [heq] at h1
  omega

/-- C1 (amended): in any state with `isComplete = true`, `handleClick` and
`handleHover` leave the state unchanged, and `cancelDialog` leaves it
unchanged whenever `dialogStage = 0`; but `confirmDialog` is not guarded by
`isComplete`: from a complete state with `dialogStage = 0` it sets
`dialogStage` to 1 (leaving `isComplete` true), so the complete state is
terminal only for clicks and hovers. -/
theorem complete_state_frozen (h : HookState) (r : ℚ)
    (hc : h.isComplete = true) :
    handleClick h = h ∧
    handleHover r h = h ∧
    (h.state.dialogStage = 0 → cancelDialog h = h) ∧
    (h.state.dialogStage = 0 →
      (confirmDialog h).state.dialogStage = 1 ∧
      (confirmDialog h).isComplete = true) := by
  refine ⟨?_, ?_, ?_, ?_⟩
  · simp [handleClick, hc]
  · simp [handleHover, hc]
  · intro hd
    obtain ⟨⟨cc, rot, sc, ds, off, dir, ec⟩, ic⟩ := h
    simp only at hd
    simp [cancelDialog, hd]
  · intro hd
    simp [confirmDialog, TROLL_MESSAGES, hd, hc]

/-- Witness for C1 (amended) at the completed state of the normal run. -/
theorem complete_state_frozen_witness :
    doneState.isComplete = true ∧ handleClick doneState = doneState :=
  ⟨by decide, (complete_state_frozen doneState 0 (by decide)).1⟩

/-! ## C2: when a raw click opens the dialog -/

/-- C2 counterexample: with `REQUIRED_CLICKS = 1`, the first click already
reaches the threshold and opens the dialog; after `cancelDialog`, a later
raw click (the second click, taken when `clickCount` already meets the
threshold) again sets `dialogStage` to 1 — not only the click on which the
threshold is first reached. -/
theorem dialog_retriggers_after_cancel :
    (handleClick initialHookState).state.clickCount = REQUIRED_CLICKS ∧
    (handleClick initialHookState).state.dialogStage = 1 ∧
    (cancelDialog (handleClick initialHookState)).state.dialogStage = 0 ∧
    afterCancelClick.state.clickCount = 2 ∧
    afterCancelClick.state.dialogStage = 1 := by decide

/-- C2 (amended): when `isComplete = false`, `handleClick` sets
`dialogStage` to 1 exactly when the incremented click count meets
`REQUIRED_CLICKS` and `dialogStage = 0` — including clicks taken after a
cancel with the threshold already met — and otherwise leaves `dialogStage`
unchanged; in particular a raw click never moves `dialogStage` above
`max 1 dialogStage`, so stages beyond 1 arise only from `confirmDialog`. -/
theorem handleClick_dialog_trigger (h : HookState)
    (hc : h.isComplete = false) :
    (h.state.clickCount + 1 ≥ REQUIRED_CLICKS ∧ h.state.dialogStage = 0 →
      (handleClick h).state.dialogStage = 1) ∧
    (h.state.dialogStage ≠ 0 →
      (handleClick h).state.dialogStage = h.state.dialogStage) ∧
    (h.state.clickCount + 1 < REQUIRED_CLICKS →
      (handleClick h).state.dialogStage = h.state.dialogStage) ∧
    (handleClick h).state.dialogStage ≤ max 1 h.state.dialogStage := by
  have key : (handleClick h).state.dialogStage =
      if h.state.clickCount + 1 ≥ REQUIRED_CLICKS ∧ h.state.dialogStage = 0
      then 1 else h.state.dialogStage := by
    by_cases hcond : h.state.clickCount + 1 ≥ REQUIRED_CLICKS ∧
        h.state.dialogStage = 0 <;>
      simp [handleClick, hc, hcond]
  refine ⟨?_, ?_, ?_, ?_⟩
  · intro hcond
    rw [key, if_pos hcond]
  · intro hd
    rw [key, if_neg]
    rintro ⟨-, h0⟩
    exact hd h0
  · intro hk
    rw [key, if_neg]
    rintro ⟨hge, -⟩
    omega
  · rw [key]
    split_ifs
    · exact le_max_left _ _
    · exact le_max_right _ _

/-- Witness for C2 (amended) at the state after click, cancel: the next
click re-opens the dialog. -/
theorem handleClick_dialog_trigger_witness :
    (cancelDialog (handleClick initialHookState)).isComplete = false ∧
    (handleClick (cancelDialog (handleClick initialHookState))).state.dialogStage
      = 1 :=
  ⟨by decide,
    (handleClick_dialog_trigger (cancelDialog (handleClick initialHookState))
      (by decide)).1 (by decide)⟩

/-! ## C6: the scale never drops below its floor -/

/-- Transition `handleClick` does not touch the completion flag. -/
theorem handleClick_isComplete (h : HookState) :
    (handleClick h).isComplete = h.isComplete := by
  by_cases hc : h.isComplete
  · simp [handleClick, hc]
  · by_cases hcond : h.state.clickCount + 1 ≥ REQUIRED_CLICKS ∧
        h.state.dialogStage = 0 <;>
      simp [handleClick, hc, hcond]

/-- No sequence of clicks from the initial state sets the completion flag. -/
theorem clicks_isComplete_false (n : Nat) :
    (clicks n initialHookState).isComplete = false := by
  induction n with
  | zero => rfl
  | succ k ih =>
      simp only [clicks] at ih ⊢
      rw [Function.iterate_succ_apply', handleClick_isComplete]
      exact ih

/-- When not complete, a click maps the scale to the clamped decrement. -/
theorem handleClick_scale (h : HookState) (hc : h.isComplete = false) :
    (handleClick h).state.scale = max MIN_SCALE (h.state.scale - SCALE_DECREMENT) := by
  by_cases hcond : h.state.clickCount + 1 ≥ REQUIRED_CLICKS ∧
      h.state.dialogStage = 0 <;>
    simp [handleClick, hc, hcond]

/-- Closed form: after `n` clicks from the initial state the scale is
`max MIN_SCALE (1 - n * SCALE_DECREMENT)`. -/
theorem clicks_scale (n : Nat) :
    (clicks n initialHookState).state.scale =
      max MIN_SCALE (1 - (n : ℚ) * SCALE_DECREMENT) := by
  induction n with
  | zero =>
      simp only [clicks, Function.iterate_zero_apply, Nat.cast_zero, zero_mul,
        sub_zero]
      rw [max_eq_right (by norm_num [MIN_SCALE] : MIN_SCALE ≤ (1:ℚ))]
      rfl
  | succ k ih =>
      have hcf := clicks_isComplete_false k
      simp only [clicks] at ih hcf ⊢
      rw [Function.iterate_succ_apply', handleClick_scale _ hcf, ih]
      have hd : (0:ℚ) ≤ SCALE_DECREMENT := by norm_num [SCALE_DECREMENT]
      rw [← max_sub_sub_right, ← max_assoc, max_eq_left (sub_le_self _ hd)]
      congr 1
      push_cast
      ring

/-- C6: after any number of clicks from the initial state the scale is at
least `MIN_SCALE = 1/2` (the per-click decrement is clamped at the floor),
and after 10 clicks the scale is exactly `1/2`. -/
theorem scale_never_below_floor :
    (∀ n : Nat, MIN_SCALE ≤ (clicks n initialHookState).state.scale) ∧
    (clicks 10 initialHookState).state.scale = MIN_SCALE := by
  constructor
  · intro n
    rw [clicks_scale n]
    exact le_max_left _ _
  · rw [clicks_scale 10,
      max_eq_left (by norm_num [MIN_SCALE, SCALE_DECREMENT])]

/-- Witness for C6 at seven clicks. -/
theorem scale_never_below_floor_witness :
    MIN_SCALE ≤ (clicks 7 initialHookState).state.scale :=
  scale_never_below_floor.1 7

/-! ## C7: hover escape offsets -/

/-- Magnitude and sign of `direction * (-1) * (lo + r * (hi - lo))` for a
unit direction and a draw `r ∈ [0, 1)`. -/
theorem escape_x_spec (d lo hi r : ℚ) (hr0 : 0 ≤ r) (hr1 : r < 1)
    (hlo : 0 < lo) (hlh : lo ≤ hi) (hd : d = 1 ∨ d = -1) :
    lo ≤ |d * (-1) * (lo + r * (hi - lo))| ∧
    |d * (-1) * (lo + r * (hi - lo))| ≤ hi ∧
    (d = 1 → d * (-1) * (lo + r * (hi - lo)) < 0) ∧
    (d = -1 → 0 < d * (-1) * (lo + r * (hi - lo))) := by
  have hD0 : 0 ≤ lo + r * (hi - lo) := by nlinarith
  have hD1 : lo ≤ lo + r * (hi - lo) := by nlinarith
  have hD2 : lo + r * (hi - lo) ≤ hi := by nlinarith
  obtain hd | hd := hd <;> subst hd
  · have hx : (1:ℚ) * (-1) * (lo + r * (hi - lo)) = -(lo + r * (hi - lo)) := by
      ring
    rw [hx, abs_neg, abs_of_nonneg hD0]
    exact ⟨hD1, hD2, fun _ => by linarith, fun hcon => by norm_num at hcon⟩
  · have hx : (-1:ℚ) * (-1) * (lo + r * (hi - lo)) = lo + r * (hi - lo) := by
      ring
    rw [hx, abs_of_nonneg hD0]
    exact ⟨hD1, hD2, fun hcon => by norm_num at hcon, fun _ => by linarith⟩

/-- Behaviour of `generateEscapeOffset` for a unit direction and a draw
`r ∈ [0, 1)`: `y = 0`, the direction flips, and the magnitude of `x` lies
in the normal range before `MAX_ESCAPES` escapes and in the tired range
afterwards, with sign opposite to the incoming direction. -/
theorem generateEscapeOffset_spec (d : ℚ) (c : Nat) (r : ℚ)
    (hr0 : 0 ≤ r) (hr1 : r < 1) (hd : d = 1 ∨ d = -1) :
    (generateEscapeOffset d c r).y = 0 ∧
    (generateEscapeOffset d c r).newDirection = -d ∧
    (c < MAX_ESCAPES →
      HOVER_ESCAPE_MIN ≤ |(generateEscapeOffset d c r).x| ∧
      |(generateEscapeOffset d c r).x| ≤ HOVER_ESCAPE_MAX) ∧
    (MAX_ESCAPES ≤ c →
      TIRED_ESCAPE_MIN ≤ |(generateEscapeOffset d c r).x| ∧
      |(generateEscapeOffset d c r).x| ≤ TIRED_ESCAPE_MAX) ∧
    (d = 1 → (generateEscapeOffset d c r).x < 0) ∧
    (d = -1 → 0 < (generateEscapeOffset d c r).x) := by
  by_cases ht : MAX_ESCAPES ≤ c
  · have hxeq : (generateEscapeOffset d c r).x
        = d * (-1) * (TIRED_ESCAPE_MIN + r * (TIRED_ESCAPE_MAX - TIRED_ESCAPE_MIN)) := by
      simp [generateEscapeOffset, ht]
    obtain ⟨ha1, ha2, hs1, hs2⟩ := escape_x_spec d TIRED_ESCAPE_MIN
      TIRED_ESCAPE_MAX r hr0 hr1 (by norm_num [TIRED_ESCAPE_MIN])
      (by norm_num [TIRED_ESCAPE_MIN, TIRED_ESCAPE_MAX]) hd
    refine ⟨by simp [generateEscapeOffset], by simp [generateEscapeOffset], ?_, ?_, ?_, ?_⟩
    · intro hlt; omega
    · intro _
      rw [hxeq]
      exact ⟨ha1, ha2⟩
    · intro h1
      rw [hxeq]
      exact hs1 h1
    · intro h1
      rw [hxeq]
      exact hs2 h1
  · have hxeq : (generateEscapeOffset d c r).x
        = d * (-1) * (HOVER_ESCAPE_MIN + r * (HOVER_ESCAPE_MAX - HOVER_ESCAPE_MIN)) := by
      simp [generateEscapeOffset, ht]
    obtain ⟨ha1, ha2, hs1, hs2⟩ := escape_x_spec d HOVER_ESCAPE_MIN
      HOVER_ESCAPE_MAX r hr0 hr1 (by norm_num [HOVER_ESCAPE_MIN])
      (by norm_num [HOVER_ESCAPE_MIN, HOVER_ESCAPE_MAX]) hd
    refine ⟨by simp [generateEscapeOffset], by simp [generateEscapeOffset], ?_, ?_, ?_, ?_⟩
    · intro _
      rw [hxeq]
      exact ⟨ha1, ha2⟩
    · intro hge; omega
    · intro h1
      rw [hxeq]
      exact hs1 h1
    · intro h1
      rw [hxeq]
      exact hs2 h1

/-- C7: `handleHover` is a no-op when complete; otherwise (with the
`Math.random()` draw `r ∈ [0, 1)` and a unit `escapeDirection`) the new
offset has `y = 0`, its magnitude lies in `[HOVER_ESCAPE_MIN,
HOVER_ESCAPE_MAX] = [80, 120]` while `escapeCount < MAX_ESCAPES = 4` and in
`[TIRED_ESCAPE_MIN, TIRED_ESCAPE_MAX] = [15, 25]` once `escapeCount ≥ 4`,
the sign of `x` is opposite to the previous `escapeDirection`, the stored
direction flips, and `escapeCount` grows by one. -/
theorem handleHover_spec (h : HookState) (r : ℚ)
    (hr0 : 0 ≤ r) (hr1 : r < 1)
    (hd : h.state.escapeDirection = 1 ∨ h.state.escapeDirection = -1) :
    (h.isComplete = true → handleHover r h = h) ∧
    (h.isComplete = false →
      ((handleHover r h).state.hoverEscapeOffset.y = 0 ∧
        (handleHover r h).state.escapeCount = h.state.escapeCount + 1 ∧
        (handleHover r h).state.escapeDirection = -h.state.escapeDirection) ∧
      (h.state.escapeCount < MAX_ESCAPES →
        HOVER_ESCAPE_MIN ≤ |(handleHover r h).state.hoverEscapeOffset.x| ∧
        |(handleHover r h).state.hoverEscapeOffset.x| ≤ HOVER_ESCAPE_MAX) ∧
      (MAX_ESCAPES ≤ h.state.escapeCount →
        TIRED_ESCAPE_MIN ≤ |(handleHover r h).state.hoverEscapeOffset.x| ∧
        |(handleHover r h).state.hoverEscapeOffset.x| ≤ TIRED_ESCAPE_MAX) ∧
      (h.state.escapeDirection = 1 →
        (handleHover r h).state.hoverEscapeOffset.x < 0) ∧
      (h.state.escapeDirection = -1 →
        0 < (handleHover r h).state.hoverEscapeOffset.x)) := by
  obtain ⟨hy, hnd, hnt, hti, hs1, hs2⟩ :=
    generateEscapeOffset_spec h.state.escapeDirection h.state.escapeCount r
      hr0 hr1 hd
  constructor
  · intro hc
    simp [handleHover, hc]
  · intro hc
    have hx : (handleHover r h).state.hoverEscapeOffset.x
        = (generateEscapeOffset h.state.escapeDirection h.state.escapeCount r).x := by
      simp [handleHover, hc]
    have hyy : (handleHover r h).state.hoverEscapeOffset.y
        = (generateEscapeOffset h.state.escapeDirection h.state.escapeCount r).y := by
      simp [handleHover, hc]
    have hdd : (handleHover r h).state.escapeDirection
        = (generateEscapeOffset h.state.escapeDirection h.state.escapeCount r).newDirection := by
      simp [handleHover, hc]
    have hcc : (handleHover r h).state.escapeCount = h.state.escapeCount + 1 := by
      simp [handleHover, hc]
    refine ⟨⟨hyy.trans hy, hcc, hdd.trans hnd⟩, fun hlt => ?_, fun hge => ?_,
      fun h1 => ?_, fun h1 => ?_⟩
    · rw [hx]
      exact hnt hlt
    · rw [hx]
      exact hti hge
    · rw [hx]
      exact hs1 h1
    · rw [hx]
      exact hs2 h1

/-- Witness for C7 at the initial state with draw `r = 1/2`. -/
theorem handleHover_spec_witness :
    (0:ℚ) ≤ 1/2 ∧ (1/2:ℚ) < 1 ∧
    (handleHover (1/2) initialHookState).state.escapeCount = 1 :=
  ⟨by norm_num, by norm_num,
    ((handleHover_spec initialHookState (1/2) (by norm_num) (by norm_num)
      (Or.inl rfl)).2 rfl).1.2.1⟩

/-! ## C4: displacement mutual exclusion -/

/-- The registry after a sequence of hover events holds the last-hovered
id; an empty sequence leaves it unchanged. -/
theorem applyHovers_registry (events : List (String × ℚ)) (sys : ListSystem) :
    (applyHovers events sys).registry.activeButtonId
      = events.getLast?.elim sys.registry.activeButtonId (fun e => some e.1) := by
  induction events generalizing sys with
  | nil => rfl
  | cons e es ih =>
      rw [applyHovers, List.foldl_cons, ← applyHovers, ih]
      cases es with
      | nil => simp [handleButtonHover, setActiveButton]
      | cons e2 es2 =>
          obtain ⟨x, hx⟩ := Option.isSome_iff_exists.mp
            (List.getLast?_isSome.mpr (List.cons_ne_nil e2 es2))
          simp [hx]

/-- C4: among sibling controls sharing one provider, after any nonempty
sequence of hover events exactly the last-hovered id is the active button
(hovering A then B makes B active and A inactive), and a control's
rendered `translateX` is 0 whenever it is not the active one, whatever its
own stored offset. -/
theorem displacement_mutual_exclusion :
    (∀ (sys : ListSystem) (events : List (String × ℚ)) (hne : events ≠ [])
      (b : String),
      isActiveButton b (applyHovers events sys).registry = true ↔
        b = (events.getLast hne).1) ∧
    (∀ (sys : ListSystem) (a b : String) (r1 r2 : ℚ), a ≠ b →
      isActiveButton a (handleButtonHover a r1 sys).registry = true ∧
      isActiveButton b (handleButtonHover a r1 sys).registry = false ∧
      isActiveButton b
        (handleButtonHover b r2 (handleButtonHover a r1 sys)).registry = true ∧
      isActiveButton a
        (handleButtonHover b r2 (handleButtonHover a r1 sys)).registry = false) ∧
    (∀ (sys : ListSystem) (id : String),
      isActiveButton id sys.registry = false → renderedOffsetX sys id = 0) := by
  refine ⟨?_, ?_, ?_⟩
  · intro sys events hne b
    rw [isActiveButton, applyHovers_registry,
      List.getLast?_eq_getLast events hne]
    simp [eq_comm]
  · intro sys a b r1 r2 hab
    refine ⟨?_, ?_, ?_, ?_⟩ <;>
      simp [isActiveButton, handleButtonHover, setActiveButton]
    · exact hab
    · exact fun hcon => hab hcon.symm
  · intro sys id hna
    rw [renderedOffsetX, if_neg]
    simp [hna]

/-- Witness for C4: hovering A then B on a fresh provider makes B active
and A inactive. -/
theorem displacement_mutual_exclusion_witness :
    ("A" : String) ≠ "B" ∧
    isActiveButton "B"
      (handleButtonHover "B" 0 (handleButtonHover "A" 0 initialListSystem)).registry
      = true ∧
    isActiveButton "A"
      (handleButtonHover "B" 0 (handleButtonHover "A" 0 initialListSystem)).registry
      = false := by
  have hab : ("A" : String) ≠ "B" := by decide
  obtain ⟨-, -, h3, h4⟩ :=
    (displacement_mutual_exclusion.2.1) initialListSystem "A" "B" 0 0 hab
  exact ⟨hab, h3, h4⟩

/-! ## C9: reading the context outside a provider throws -/

/-- C9: `useTrollButtonContext` with no provider in scope (context value
undefined) throws the error message
`useTrollButtonContext must be used within a TrollButtonProvider`, and with
a provider in scope it returns the context value and never throws. -/
theorem useTrollButtonContext_spec :
    (useTrollButtonContext none =
      Except.error
        "useTrollButtonContext must be used within a TrollButtonProvider") ∧
    (∀ c : TrollButtonContextValue,
      useTrollButtonContext (some c) = Except.ok c ∧
      ∀ e : String, useTrollButtonContext (some c) ≠ Except.error e) := by
  refine ⟨rfl, fun c => ⟨rfl, fun e hcon => ?_⟩⟩
  simp [useTrollButtonContext] at hcon

/-- Witness for C9 with an empty registry value in scope. -/
theorem useTrollButtonContext_spec_witness :
    useTrollButtonContext (some { activeButtonId := none }) =
      Except.ok { activeButtonId := none } :=
  (useTrollButtonContext_spec.2 { activeButtonId := none }).1

/-! ## C8: the fixed `DoneButton` -/

/-- C8: the fixed `DoneButton` renders nothing when the todo is completed;
otherwise the rendered button's single activation invokes the completion
callback exactly once (with a counting callback, one activation adds
exactly one invocation) and the button carries no hover handler — the
component holds no offset, rotation or scale state at all. -/
theorem doneButton_spec :
    (∀ (σ : Type) (cb : σ → σ), DoneButton cb true = none) ∧
    (∀ (σ : Type) (cb : σ → σ) (s : σ) (node : ButtonNode σ),
      DoneButton cb false = some node →
        activate node s = cb s ∧ node.onMouseEnter = none) ∧
    (∀ n : Nat,
      (DoneButton Nat.succ false).elim 0 (fun node => activate node n) = n + 1) := by
  refine ⟨fun σ cb => rfl, fun σ cb s node he => ?_, fun n => rfl⟩
  have hnode : ({ onClick := cb, onMouseEnter := none } : ButtonNode σ) = node := by
    simpa [DoneButton] using he
  subst hnode
  exact ⟨rfl, rfl⟩

/-- Witness for C8: a counting callback fires exactly once per activation. -/
theorem doneButton_spec_witness :
    DoneButton Nat.succ true = none ∧
    activate { onClick := Nat.succ, onMouseEnter := none } 0 = 1 ∧
    (DoneButton Nat.succ false).elim 0 (fun node => activate node 5) = 6 :=
  ⟨doneButton_spec.1 Nat Nat.succ,
    (doneButton_spec.2.1 Nat Nat.succ 0
      { onClick := Nat.succ, onMouseEnter := none } rfl).1,
    doneButton_spec.2.2 5⟩

end KiroDemo
